import Mathlib

/-!
Verification of the quoting & fulfillment pipeline of the web-app-template
repository, as a shallow embedding in Lean 4.

The embedding follows the Rust sources:
  * `core/entities/src/lib.rs`      — Money, Cart, PricingPolicy, Quote/Invoice records
  * `core/entities/src/ordering.rs` — Variant B entities (School, Employee, Quote …)
  * `core/use_cases/src/lib.rs`     — Variant A interactors (GetQuote, ConfirmOrder, UpdateCart)
  * `core/use_cases/src/ordering/`  — Variant B interactors (ViewQuote, SubmitQuote) and
    `quote_builder.rs` / `build_email_body`
  * `datastore/src/lib.rs`          — the in-memory port semantics (keyed maps, append-only
    stores with an auto-incremented id counter, `clear_cart` removing the key)

Machine integers are modelled as `Nat`/`Int` (Rust `i64` division truncates toward zero,
which is `Int.div`; `u32::saturating_add` is addition capped at `2^32 - 1`).  Rust `f64`
values that the pipeline merely copies or combines with `+`/`*` (Variant B prices and
rates) are modelled as `Rat`.  Fallible operations return `Except`; the asynchronous port
calls are sequential in the source, and are modelled by explicit state passing over a
world record that also keeps a trace of the effectful port calls.
-/

namespace WebApp

/-- Largest value of a Rust `u32`; the saturation bound of `u32::saturating_add`. -/
def u32Max : Nat := 2 ^ 32 - 1

/-- Rust `u32::saturating_add` on naturals: add, capping at `u32Max`. -/
def satAdd (x y : Nat) : Nat := min (x + y) u32Max

abbrev EmployeeId := Nat
abbrev ProductId := Nat

/-- Rust `core_entities::Money`: an `i64` count of cents (construction enforces non-negativity,
the arithmetic operations do not re-check it). -/
structure Money where
  cents : Int
deriving DecidableEq

/-- Rust `core_entities::MoneyError`. -/
structure MoneyError where
  message : String
deriving DecidableEq

/-- Rust `Money::from_cents`: fails on negative input. -/
def Money.from_cents (cents : Int) : Except MoneyError Money :=
  if cents < 0 then .error ⟨"money cannot be negative"⟩ else .ok ⟨cents⟩

def Money.zero : Money := ⟨0⟩

/-- Rust `Money::add`. -/
def Money.add (a b : Money) : Money := ⟨a.cents + b.cents⟩

/-- Rust `Money::multiply` by a `u32` quantity. -/
def Money.multiply (a : Money) (quantity : Nat) : Money := ⟨a.cents * (quantity : Int)⟩

/-- Rust `Money::apply_rate_ppm`: `(cents * rate_ppm) / 100_000` with Rust `i64` division,
which truncates toward zero (`Int.tdiv`). -/
def Money.apply_rate_ppm (a : Money) (rate_ppm : Int) : Money :=
  ⟨Int.tdiv (a.cents * rate_ppm) 100000⟩

/-- Rust `core_entities::ProductCategory`. -/
inductive ProductCategory where
  | Food
  | Accessory
deriving DecidableEq

/-- Rust `core_entities::Product`. -/
structure Product where
  id : ProductId
  name : String
  category : ProductCategory
  unit_price : Money
deriving DecidableEq

/-- Rust `core_entities::CartItem`. -/
structure CartItem where
  product_id : ProductId
  quantity : Nat
deriving DecidableEq

/-- Rust `core_entities::Cart`. -/
structure Cart where
  employee_id : EmployeeId
  items : List CartItem
deriving DecidableEq

/-- Rust `core_entities::CartError`. -/
inductive CartError where
  | InvalidQuantity
  | MissingItem
deriving DecidableEq

/-- Rust `Cart::empty`. -/
def Cart.empty (employee_id : EmployeeId) : Cart := ⟨employee_id, []⟩

/-- Whether some item of the list carries the given product id
(Rust `items.iter().find(|item| item.product_id == product_id).is_some()`). -/
def hasItem (product_id : ProductId) : List CartItem → Bool
  | [] => false
  | it :: rest => it.product_id == product_id || hasItem product_id rest

/-- Rust `iter_mut().find(..)` in `Cart::add_item`: bump the quantity of the first
item with the given product id by a saturating add; later items untouched. -/
def bumpFirst (product_id : ProductId) (quantity : Nat) : List CartItem → List CartItem
  | [] => []
  | it :: rest =>
    if it.product_id = product_id then
      { it with quantity := satAdd it.quantity quantity } :: rest
    else
      it :: bumpFirst product_id quantity rest

/-- Rust `iter_mut().find(..)` in `Cart::set_quantity`: overwrite the quantity of the
first item with the given product id; later items untouched. -/
def setFirst (product_id : ProductId) (quantity : Nat) : List CartItem → List CartItem
  | [] => []
  | it :: rest =>
    if it.product_id = product_id then
      { it with quantity := quantity } :: rest
    else
      it :: setFirst product_id quantity rest

/-- Rust `Cart::add_item`: reject quantity 0, merge into an existing line with a
saturating add, otherwise push a fresh line at the end. -/
def Cart.add_item (c : Cart) (product_id : ProductId) (quantity : Nat) :
    Except CartError Cart :=
  if quantity = 0 then
    .error CartError.InvalidQuantity
  else if hasItem product_id c.items then
    .ok { c with items := bumpFirst product_id quantity c.items }
  else
    .ok { c with items := c.items ++ [{ product_id := product_id, quantity := quantity }] }

/-- Rust `Cart::set_quantity`: on a present line, quantity 0 removes it (Rust `retain`)
and a positive quantity overwrites it; on an absent line, a positive quantity pushes
a fresh line and quantity 0 is the `MissingItem` error. -/
def Cart.set_quantity (c : Cart) (product_id : ProductId) (quantity : Nat) :
    Except CartError Cart :=
  if hasItem product_id c.items then
    if quantity = 0 then
      .ok { c with items := c.items.filter (fun it => !(it.product_id == product_id)) }
    else
      .ok { c with items := setFirst product_id quantity c.items }
  else if 0 < quantity then
    .ok { c with items := c.items ++ [{ product_id := product_id, quantity := quantity }] }
  else
    .error CartError.MissingItem

/-- Rust `Cart::is_empty`. -/
def Cart.is_empty (c : Cart) : Bool := c.items.isEmpty

/-- Quantity stored on the first line with the given product id, if any
(read-back used to state the cart theorems). -/
def findQty (product_id : ProductId) : List CartItem → Option Nat
  | [] => none
  | it :: rest => if it.product_id = product_id then some it.quantity else findQty product_id rest

/-- Quantity stored in the cart for a product id. -/
def Cart.qty (c : Cart) (product_id : ProductId) : Option Nat := findQty product_id c.items

/-- The cart invariant of the spec: product ids are pairwise distinct and every
stored line has quantity at least 1. -/
def CartInv (c : Cart) : Prop :=
  (c.items.map fun it => it.product_id).Nodup ∧ ∀ it ∈ c.items, 1 ≤ it.quantity

/-- Rust `core_entities::Employee` (Variant A side). -/
structure Employee where
  id : EmployeeId
  name : String
  email : String
  password : String
deriving DecidableEq

/-- Rust `core_entities::QuoteLine` (same shape as `InvoiceLine` and the use-case `CartLine`). -/
structure QuoteLine where
  product_id : ProductId
  name : String
  category : ProductCategory
  unit_price : Money
  quantity : Nat
  line_total : Money
deriving DecidableEq

/-- Rust `core_entities::InvoiceLine`. -/
structure InvoiceLine where
  product_id : ProductId
  name : String
  category : ProductCategory
  unit_price : Money
  quantity : Nat
  line_total : Money
deriving DecidableEq

/-- Rust `core_use_cases::outputs::CartLine`. -/
structure CartLine where
  product_id : ProductId
  name : String
  category : ProductCategory
  unit_price : Money
  quantity : Nat
  line_total : Money
deriving DecidableEq

/-- Rust `core_entities::QuoteDraft`. -/
structure QuoteDraft where
  employee_id : EmployeeId
  items : List QuoteLine
  subtotal : Money
  fee : Money
  tax : Money
  total : Money
  submitted_at : Nat
deriving DecidableEq

/-- Rust `core_entities::QuoteRecord` (a persisted quote, id assigned by the store). -/
structure QuoteRecord where
  id : Nat
  employee_id : EmployeeId
  items : List QuoteLine
  subtotal : Money
  fee : Money
  tax : Money
  total : Money
  submitted_at : Nat
deriving DecidableEq

/-- Rust `core_entities::InvoiceDraft`. -/
structure InvoiceDraft where
  employee_id : EmployeeId
  items : List InvoiceLine
  subtotal : Money
  fee : Money
  tax : Money
  total : Money
deriving DecidableEq

/-- Rust `core_entities::Invoice` (a persisted invoice, id assigned by the store). -/
structure Invoice where
  id : Nat
  employee_id : EmployeeId
  items : List InvoiceLine
  subtotal : Money
  fee : Money
  tax : Money
  total : Money
deriving DecidableEq

/-- Rust `core_entities::PricingPolicy` (Variant A: flat fee plus a ppm tax rate). -/
structure PricingPolicy where
  flat_fee : Money
  tax_rate_ppm : Int
deriving DecidableEq

/-- Rust `PricingPolicy::calculate_tax`. -/
def PricingPolicy.calculate_tax (p : PricingPolicy) (taxable_amount : Money) : Money :=
  taxable_amount.apply_rate_ppm p.tax_rate_ppm

/-- Rust `core_use_cases::UseCaseError` (errors carry their cause message). -/
inductive UseCaseError where
  | Repo (message : String)
  | Email (message : String)
  | Validation (message : String)
  | NotFound (message : String)
  | Unauthorized
  | EmptyCart
deriving DecidableEq

/-- Rust `core_use_cases::outputs::CartOutput`. -/
structure CartOutput where
  items : List CartLine
  subtotal : Money
deriving DecidableEq

/-- Rust `core_use_cases::outputs::QuoteOutput`. -/
structure QuoteOutput where
  items : List CartLine
  subtotal : Money
  fee : Money
  tax : Money
  total : Money
deriving DecidableEq

/-- Rust `core_use_cases::outputs::ConfirmOrderOutput`. -/
structure ConfirmOrderOutput where
  invoice_id : Nat
  total : Money
  email : String
deriving DecidableEq

/-- Rust `core_use_cases::build_cart_line`. -/
def build_cart_line (product : Product) (quantity : Nat) (line_total : Money) : CartLine :=
  { product_id := product.id
    name := product.name
    category := product.category
    unit_price := product.unit_price
    quantity := quantity
    line_total := line_total }

/-- The loop body of `core_use_cases::build_cart_lines`: resolve each cart item
against the catalog (first missing product aborts with `NotFound`), accumulating
the resolved lines and the running subtotal exactly as the Rust `for` loop does. -/
def build_cart_lines_from (catalog : ProductId → Option Product)
    (acc : List CartLine) (subtotal : Money) :
    List CartItem → Except UseCaseError (List CartLine × Money)
  | [] => .ok (acc, subtotal)
  | item :: rest =>
    match catalog item.product_id with
    | none => .error (UseCaseError.NotFound "product not found")
    | some product =>
      let line_total := product.unit_price.multiply item.quantity
      build_cart_lines_from catalog (acc ++ [build_cart_line product item.quantity line_total])
        (subtotal.add line_total) rest

/-- Rust `core_use_cases::build_cart_lines`. -/
def build_cart_lines (catalog : ProductId → Option Product) (cart : Cart) :
    Except UseCaseError (List CartLine × Money) :=
  build_cart_lines_from catalog [] Money.zero cart.items

/-- The effectful port calls a Variant A interactor can issue, in the order they
are awaited; reads (`get_by_id`, `get_cart`, `find_product`) are pure against the
world and are not traced. -/
inductive PortCallA where
  | createQuote
  | createInvoice
  | sendEmail (to_addr : String)
  | clearCart (employee_id : EmployeeId)
  | saveCart (employee_id : EmployeeId)
deriving DecidableEq

/-- The Variant A world: the in-memory repositories of `datastore/src/lib.rs`
(keyed maps; append-only quote/invoice stores with an auto-incremented id), the
email gateway (whose success or failure is part of the environment), the clock,
and the trace of effectful port calls. -/
structure WorldA where
  employees : EmployeeId → Option Employee
  catalog : ProductId → Option Product
  carts : EmployeeId → Option Cart
  quotes : List QuoteRecord
  nextQuoteId : Nat
  invoices : List Invoice
  nextInvoiceId : Nat
  sentEmails : List (String × Invoice)
  emailFails : Bool
  emailFailMsg : String
  now : Nat
  trace : List PortCallA

/-- Rust `InMemoryQuoteRepository::create_quote`: assign the next id, push the record. -/
def WorldA.createQuote (w : WorldA) (draft : QuoteDraft) : WorldA × QuoteRecord :=
  let record : QuoteRecord :=
    { id := w.nextQuoteId
      employee_id := draft.employee_id
      items := draft.items
      subtotal := draft.subtotal
      fee := draft.fee
      tax := draft.tax
      total := draft.total
      submitted_at := draft.submitted_at }
  ({ w with
      quotes := w.quotes ++ [record]
      nextQuoteId := w.nextQuoteId + 1
      trace := w.trace ++ [PortCallA.createQuote] }, record)

/-- Rust `InMemoryInvoiceRepository::create_invoice`: assign the next id, push the invoice. -/
def WorldA.createInvoice (w : WorldA) (draft : InvoiceDraft) : WorldA × Invoice :=
  let invoice : Invoice :=
    { id := w.nextInvoiceId
      employee_id := draft.employee_id
      items := draft.items
      subtotal := draft.subtotal
      fee := draft.fee
      tax := draft.tax
      total := draft.total }
  ({ w with
      invoices := w.invoices ++ [invoice]
      nextInvoiceId := w.nextInvoiceId + 1
      trace := w.trace ++ [PortCallA.createInvoice] }, invoice)

/-- Rust `EmailGateway::send_invoice`: the environment decides whether the gateway
fails; on success the message is recorded. -/
def WorldA.sendInvoice (w : WorldA) (to_addr : String) (invoice : Invoice) :
    WorldA × Except String Unit :=
  if w.emailFails then
    (w, .error w.emailFailMsg)
  else
    ({ w with
        sentEmails := w.sentEmails ++ [(to_addr, invoice)]
        trace := w.trace ++ [PortCallA.sendEmail to_addr] }, .ok ())

/-- Rust `InMemoryCartRepository::clear_cart`: remove the employee's cart entry. -/
def WorldA.clearCart (w : WorldA) (employee_id : EmployeeId) : WorldA :=
  { w with
      carts := fun e => if e = employee_id then none else w.carts e
      trace := w.trace ++ [PortCallA.clearCart employee_id] }

/-- Rust `InMemoryCartRepository::save_cart`: insert keyed by the cart's employee id. -/
def WorldA.saveCart (w : WorldA) (cart : Cart) : WorldA :=
  { w with
      carts := fun e => if e = cart.employee_id then some cart else w.carts e
      trace := w.trace ++ [PortCallA.saveCart cart.employee_id] }

/-- Cart read with the interactors' `unwrap_or_else(|| Cart::empty(..))`. -/
def WorldA.cartOf (w : WorldA) (employee_id : EmployeeId) : Cart :=
  (w.carts employee_id).getD (Cart.empty employee_id)

/-- Rust `QuoteLine` built from a resolved `CartLine` (the field-by-field copy in
`GetQuoteInteractor::execute`). -/
def quoteLineOfCartLine (item : CartLine) : QuoteLine :=
  { product_id := item.product_id
    name := item.name
    category := item.category
    unit_price := item.unit_price
    quantity := item.quantity
    line_total := item.line_total }

/-- Rust `InvoiceLine` built from a resolved `CartLine` (the field-by-field copy in
`ConfirmOrderInteractor::execute`). -/
def invoiceLineOfCartLine (item : CartLine) : InvoiceLine :=
  { product_id := item.product_id
    name := item.name
    category := item.category
    unit_price := item.unit_price
    quantity := item.quantity
    line_total := item.line_total }

/-- Rust `GetQuoteInteractor::execute`: load the cart, reject an empty cart, resolve
the lines, price them under Variant A, persist the quote, return the view. -/
def getQuote (pricing : PricingPolicy) (w : WorldA) (employee_id : EmployeeId) :
    WorldA × Except UseCaseError QuoteOutput :=
  let cart := w.cartOf employee_id
  if cart.is_empty then
    (w, .error UseCaseError.EmptyCart)
  else
    match build_cart_lines w.catalog cart with
    | .error e => (w, .error e)
    | .ok (items, subtotal) =>
      let fee := pricing.flat_fee
      let taxable := subtotal.add fee
      let tax := pricing.calculate_tax taxable
      let total := taxable.add tax
      let draft : QuoteDraft :=
        { employee_id := cart.employee_id
          items := items.map quoteLineOfCartLine
          subtotal := subtotal
          fee := fee
          tax := tax
          total := total
          submitted_at := w.now }
      let created := w.createQuote draft
      (created.1, .ok { items := items, subtotal := subtotal, fee := fee, tax := tax, total := total })

/-- Rust `ConfirmOrderInteractor::execute`: employee lookup, cart load, empty-cart
check, line resolution, Variant A pricing, then persist the invoice, send the
invoice email, and clear the cart — in that order, each step aborting the rest
on failure. -/
def confirmOrder (pricing : PricingPolicy) (w : WorldA) (employee_id : EmployeeId) :
    WorldA × Except UseCaseError ConfirmOrderOutput :=
  match w.employees employee_id with
  | none => (w, .error (UseCaseError.NotFound "employee not found"))
  | some employee =>
    let cart := w.cartOf employee_id
    if cart.is_empty then
      (w, .error UseCaseError.EmptyCart)
    else
      match build_cart_lines w.catalog cart with
      | .error e => (w, .error e)
      | .ok (items, subtotal) =>
        let fee := pricing.flat_fee
        let taxable := subtotal.add fee
        let tax := pricing.calculate_tax taxable
        let total := taxable.add tax
        let draft : InvoiceDraft :=
          { employee_id := employee.id
            items := items.map invoiceLineOfCartLine
            subtotal := subtotal
            fee := fee
            tax := tax
            total := total }
        let created := w.createInvoice draft
        let sent := created.1.sendInvoice employee.email created.2
        match sent.2 with
        | .error msg => (sent.1, .error (UseCaseError.Email msg))
        | .ok _ =>
          let cleared := sent.1.clearCart employee.id
          (cleared, .ok { invoice_id := created.2.id, total := total, email := employee.email })

/-- Rust `UpdateCartInteractor::execute`: load (or create) the cart, apply
`set_quantity`, persist the mutated cart, and only then resolve the view
against the catalog. -/
def updateCart (w : WorldA) (employee_id : EmployeeId) (product_id : ProductId)
    (quantity : Nat) : WorldA × Except UseCaseError CartOutput :=
  let cart := w.cartOf employee_id
  match cart.set_quantity product_id quantity with
  | .error _ => (w, .error (UseCaseError.Validation "invalid cart update"))
  | .ok updated =>
    let saved := w.saveCart updated
    match build_cart_lines w.catalog updated with
    | .error e => (saved, .error e)
    | .ok (items, subtotal) => (saved, .ok { items := items, subtotal := subtotal })

namespace ordering

/-- Rust `core_entities::ordering::School`. -/
structure School where
  name : String
  code : Option String
deriving DecidableEq

/-- Rust `core_entities::ordering::Employee`. -/
structure Employee where
  email : String
  password : String
  first_name : String
  last_name : String
  title : String
  school_name : String
  phone : String
  delivery_window : String
deriving DecidableEq

/-- Rust `core_entities::ordering::CartLineItem` (`f64` price modelled as `Rat`). -/
structure CartLineItem where
  description : String
  quantity : Nat
  price : Rat
deriving DecidableEq

/-- Rust `core_entities::ordering::QuoteLineItem`. -/
structure QuoteLineItem where
  description : String
  quantity : Nat
  price : Rat
  line_total : Rat
deriving DecidableEq

/-- Rust `core_entities::ordering::Quote`. -/
structure Quote where
  number : String
  line_items : List QuoteLineItem
  subtotal : Rat
  tax : Rat
  shipping : Rat
  total : Rat
  delivery_window : String
deriving DecidableEq

/-- Rust `core_entities::ordering::InvoiceLineItem`. -/
structure InvoiceLineItem where
  description : String
  quantity : Nat
  price : Rat
deriving DecidableEq

/-- Rust `core_entities::ordering::Invoice`. -/
structure Invoice where
  quote_number : String
  line_items : List InvoiceLineItem
  tax : Option Rat
  shipping : Option Rat
  delivery_window : String
  school : String
deriving DecidableEq

/-- Rust `core_entities::ordering::CalendarDate`. -/
structure CalendarDate where
  month : Nat
  day : Nat
  year_two_digits : Nat
deriving DecidableEq

/-- Rust `core_ports::ordering::StructuredEmailBody`. -/
structure StructuredEmailBody where
  school : String
  delivery_window : String
  line_item_description : String
  line_item_quantity : Nat
  line_item_price : Rat
deriving DecidableEq

/-- Rust `core_ports::ordering::EmailBody`. -/
inductive EmailBody where
  | Structured (body : StructuredEmailBody)
deriving DecidableEq

/-- Rust `core_ports::ordering::EmailAttachment` (bytes as a list of naturals). -/
structure EmailAttachment where
  content_type : String
  file_name : Option String
  bytes : List Nat
deriving DecidableEq

/-- Rust `core_ports::ordering::EmailMessage` (the Rust field `to` is a Lean keyword,
hence `to_addr`). -/
structure EmailMessage where
  to_addr : String
  body : EmailBody
  attachments : List EmailAttachment
deriving DecidableEq

/-- Rust `core_use_cases::ordering::errors::QuoteError`. -/
structure QuoteError where
  message : String
deriving DecidableEq

/-- Rust `format!("{:02}", n)` for an unsigned integer: decimal digits padded on
the left with `0` to a minimum width of 2. -/
def fmt02 (n : Nat) : String := if n < 10 then "0" ++ toString n else toString n

/-- Rust `core_use_cases::ordering::quote_builder::build_quote` (Variant B): snapshot
the cart lines, price with plain `tax = subtotal * tax_rate`,
`shipping = subtotal * shipping_rate`, and form the document number
`{school_code}x{MM}{DD}{YY}`. -/
def build_quote (school_code : String) (date : CalendarDate) (delivery_window : String)
    (cart_items : List CartLineItem) (tax_rate shipping_rate : Rat) : Quote :=
  let line_items : List QuoteLineItem := cart_items.map fun item =>
    { description := item.description
      quantity := item.quantity
      price := item.price
      line_total := item.price * (item.quantity : Rat) }
  let subtotal : Rat := (line_items.map fun item => item.line_total).sum
  let tax := subtotal * tax_rate
  let shipping := subtotal * shipping_rate
  let total := subtotal + tax + shipping
  { number := school_code ++ "x" ++ fmt02 date.month ++ fmt02 date.day
      ++ fmt02 date.year_two_digits
    line_items := line_items
    subtotal := subtotal
    tax := tax
    shipping := shipping
    total := total
    delivery_window := delivery_window }

/-- Rust `submit_quote_interactor::build_invoice`. -/
def build_invoice (quote : Quote) (school_name : String) : Invoice :=
  { quote_number := quote.number
    line_items := quote.line_items.map fun item =>
      { description := item.description, quantity := item.quantity, price := item.price }
    tax := some quote.tax
    shipping := some quote.shipping
    delivery_window := quote.delivery_window
    school := school_name }

/-- Rust `submit_quote_interactor::build_email_body`: the structured body carries the
invoice's school and delivery window plus the fields of the FIRST line item only
(defaulting to `("", 0, 0.0)` on an empty invoice). -/
def build_email_body (invoice : Invoice) : EmailBody :=
  let first := (invoice.line_items.head?.map fun item =>
    (item.description, item.quantity, item.price)).getD ("", 0, (0 : Rat))
  EmailBody.Structured
    { school := invoice.school
      delivery_window := invoice.delivery_window
      line_item_description := first.1
      line_item_quantity := first.2.1
      line_item_price := first.2.2 }

/-- The Variant B world: the in-memory repositories keyed as in the unit-test
fakes (employees by email, schools by name, cart lines by employee email with an
empty default), the injected clock and rates, the append-only quote/invoice
stores, the email outbox, and the (infallible) PDF renderer. -/
structure WorldB where
  employees : String → Option Employee
  schools : String → Option School
  carts : String → List CartLineItem
  today : CalendarDate
  tax_rate : Rat
  shipping_rate : Rat
  quotes : List Quote
  invoices : List Invoice
  outbox : List EmailMessage
  renderPdf : Invoice → List Nat

/-- Rust `ViewQuoteInteractor::execute`: employee → school → school code → date →
cart lines → rates, failing fast with a `QuoteError` carrying the cause; then
build the quote and persist it. -/
def viewQuote (w : WorldB) (email : String) : WorldB × Except QuoteError Quote :=
  match w.employees email with
  | none => (w, .error ⟨"employee account not found"⟩)
  | some employee =>
    match w.schools employee.school_name with
    | none => (w, .error ⟨"school not found"⟩)
    | some school =>
      match school.code with
      | none => (w, .error ⟨"school code not found"⟩)
      | some school_code =>
        let date := w.today
        let cart_items := w.carts email
        let quote := build_quote school_code date employee.delivery_window cart_items
          w.tax_rate w.shipping_rate
        ({ w with quotes := w.quotes ++ [quote] }, .ok quote)

/-- Rust `SubmitQuoteInteractor`'s output. -/
structure SubmitQuoteOutput where
  quote_number : String
deriving DecidableEq

/-- Rust `SubmitQuoteInteractor::execute`: the same resolution pipeline as
`ViewQuoteInteractor`, then save the quote, build and save the invoice, render
its PDF, send the structured email with the PDF attached, and clear the cart —
in that order. -/
def submitQuote (w : WorldB) (email : String) : WorldB × Except QuoteError SubmitQuoteOutput :=
  match w.employees email with
  | none => (w, .error ⟨"employee account not found"⟩)
  | some employee =>
    match w.schools employee.school_name with
    | none => (w, .error ⟨"school not found"⟩)
    | some school =>
      match school.code with
      | none => (w, .error ⟨"school code not found"⟩)
      | some school_code =>
        let date := w.today
        let cart_items := w.carts email
        let quote := build_quote school_code date employee.delivery_window cart_items
          w.tax_rate w.shipping_rate
        let w1 := { w with quotes := w.quotes ++ [quote] }
        let invoice := build_invoice quote employee.school_name
        let w2 := { w1 with invoices := w1.invoices ++ [invoice] }
        let pdf_bytes := w.renderPdf invoice
        let message : EmailMessage :=
          { to_addr := employee.email
            body := build_email_body invoice
            attachments := [{ content_type := "application/pdf"
                              file_name := some "invoice.pdf"
                              bytes := pdf_bytes }] }
        let w3 := { w2 with outbox := w2.outbox ++ [message] }
        let w4 := { w3 with carts := fun e => if e = email then [] else w3.carts e }
        (w4, .ok { quote_number := quote.number })

end ordering

/-! ### Cart lemmas -/

theorem hasItem_iff {product_id : ProductId} {l : List CartItem} :
    hasItem product_id l = true ↔ ∃ it ∈ l, it.product_id = product_id := by
  induction l with
  | nil => simp [hasItem]
  | cons it rest ih => simp [hasItem, ih]

theorem hasItem_eq_false_iff {product_id : ProductId} {l : List CartItem} :
    hasItem product_id l = false ↔ ∀ it ∈ l, it.product_id ≠ product_id := by
  rw [← Bool.not_eq_true, hasItem_iff]
  simp

theorem map_pid_bumpFirst (product_id : ProductId) (q : Nat) (l : List CartItem) :
    (bumpFirst product_id q l).map (fun it => it.product_id) =
      l.map (fun it => it.product_id) := by
  induction l with
  | nil => rfl
  | cons it rest ih =>
    by_cases h : it.product_id = product_id <;> simp [bumpFirst, h, ih]

theorem map_pid_setFirst (product_id : ProductId) (q : Nat) (l : List CartItem) :
    (setFirst product_id q l).map (fun it => it.product_id) =
      l.map (fun it => it.product_id) := by
  induction l with
  | nil => rfl
  | cons it rest ih =>
    by_cases h : it.product_id = product_id <;> simp [setFirst, h, ih]

theorem one_le_satAdd {x : Nat} (q : Nat) (hx : 1 ≤ x) : 1 ≤ satAdd x q := by
  have : (1 : Nat) ≤ u32Max := by norm_num [u32Max]
  simp only [satAdd]
  omega

theorem quantity_bumpFirst {product_id : ProductId} {q : Nat} {l : List CartItem}
    (h : ∀ it ∈ l, 1 ≤ it.quantity) :
    ∀ it ∈ bumpFirst product_id q l, 1 ≤ it.quantity := by
  induction l with
  | nil => simp [bumpFirst]
  | cons it rest ih =>
    by_cases hp : it.product_id = product_id
    · simp only [bumpFirst, hp, if_pos]
      intro j hj
      rcases List.mem_cons.mp hj with hj | hj
      · subst hj
        exact one_le_satAdd q (h it (List.mem_cons_self it rest))
      · exact h j (List.mem_cons_of_mem it hj)
    · simp only [bumpFirst, hp, if_neg, not_false_iff]
      intro j hj
      rcases List.mem_cons.mp hj with hj | hj
      · subst hj
        exact h j (List.mem_cons_self j rest)
      · exact ih (fun k hk => h k (List.mem_cons_of_mem it hk)) j hj

theorem quantity_setFirst {product_id : ProductId} {q : Nat} {l : List CartItem}
    (h : ∀ it ∈ l, 1 ≤ it.quantity) (hq : 1 ≤ q) :
    ∀ it ∈ setFirst product_id q l, 1 ≤ it.quantity := by
  induction l with
  | nil => simp [setFirst]
  | cons it rest ih =>
    by_cases hp : it.product_id = product_id
    · simp only [setFirst, hp, if_pos]
      intro j hj
      rcases List.mem_cons.mp hj with hj | hj
      · subst hj; exact hq
      · exact h j (List.mem_cons_of_mem it hj)
    · simp only [setFirst, hp, if_neg, not_false_iff]
      intro j hj
      rcases List.mem_cons.mp hj with hj | hj
      · subst hj
        exact h j (List.mem_cons_self j rest)
      · exact ih (fun k hk => h k (List.mem_cons_of_mem it hk)) j hj

theorem findQty_bumpFirst (product_id : ProductId) (q : Nat) (l : List CartItem) :
    findQty product_id (bumpFirst product_id q l) =
      (findQty product_id l).map (fun x => satAdd x q) := by
  induction l with
  | nil => rfl
  | cons it rest ih =>
    by_cases h : it.product_id = product_id <;> simp [bumpFirst, findQty, h, ih]

theorem findQty_setFirst (product_id : ProductId) (q : Nat) (l : List CartItem) :
    findQty product_id (setFirst product_id q l) =
      (findQty product_id l).map (fun _ => q) := by
  induction l with
  | nil => rfl
  | cons it rest ih =>
    by_cases h : it.product_id = product_id <;> simp [setFirst, findQty, h, ih]

theorem findQty_eq_none {product_id : ProductId} {l : List CartItem}
    (h : hasItem product_id l = false) : findQty product_id l = none := by
  induction l with
  | nil => rfl
  | cons it rest ih =>
    simp only [hasItem, Bool.or_eq_false_iff, beq_eq_false_iff_ne, ne_eq] at h
    simp [findQty, h.1, ih h.2]

theorem findQty_isSome {product_id : ProductId} {l : List CartItem}
    (h : hasItem product_id l = true) : ∃ x, findQty product_id l = some x := by
  induction l with
  | nil => simp [hasItem] at h
  | cons it rest ih =>
    by_cases hp : it.product_id = product_id
    · exact ⟨it.quantity, by simp [findQty, hp]⟩
    · simp only [hasItem, Bool.or_eq_true, beq_iff_eq, hp, false_or] at h
      obtain ⟨x, hx⟩ := ih h
      exact ⟨x, by simp [findQty, hp, hx]⟩

theorem hasItem_of_findQty {product_id : ProductId} {l : List CartItem} {x : Nat}
    (h : findQty product_id l = some x) : hasItem product_id l = true := by
  induction l with
  | nil => simp [findQty] at h
  | cons it rest ih =>
    by_cases hp : it.product_id = product_id
    · simp [hasItem, hp]
    · simp only [findQty, hp, if_neg, not_false_iff] at h
      simp [hasItem, hp, ih h]

theorem findQty_append_self {product_id : ProductId} {l : List CartItem} (q : Nat)
    (h : hasItem product_id l = false) :
    findQty product_id (l ++ [{ product_id := product_id, quantity := q }]) = some q := by
  induction l with
  | nil => simp [findQty]
  | cons it rest ih =>
    simp only [hasItem, Bool.or_eq_false_iff, beq_eq_false_iff_ne, ne_eq] at h
    simp [findQty, h.1, ih h.2]

theorem findQty_filter_ne (product_id : ProductId) (l : List CartItem) :
    findQty product_id (l.filter fun it => !(it.product_id == product_id)) = none := by
  induction l with
  | nil => rfl
  | cons it rest ih =>
    by_cases h : it.product_id = product_id
    · simpa [List.filter_cons, h] using ih
    · simpa [List.filter_cons, findQty, h] using ih

/-- Result of a successful `Cart::add_item`: the stored quantity for the product is the
old one merged with a saturating add, or the fresh quantity when the line was absent. -/
theorem qty_add_item {c c' : Cart} {product_id : ProductId} {q : Nat}
    (hq : q ≠ 0) (h : c.add_item product_id q = .ok c') :
    c'.qty product_id =
      some ((c.qty product_id).elim q (fun x => satAdd x q)) := by
  unfold Cart.add_item at h
  rw [if_neg hq] at h
  by_cases hh : hasItem product_id c.items
  · rw [if_pos hh] at h
    obtain ⟨x, hx⟩ := findQty_isSome hh
    cases h
    simp [Cart.qty, findQty_bumpFirst, hx]
  · rw [if_neg hh] at h
    cases h
    have hfalse : hasItem product_id c.items = false := by
      simpa using hh
    simp [Cart.qty, findQty_append_self _ hfalse, findQty_eq_none hfalse]

theorem add_item_ok (c : Cart) (product_id : ProductId) {q : Nat} (hq : q ≠ 0) :
    ∃ c', c.add_item product_id q = .ok c' := by
  unfold Cart.add_item
  rw [if_neg hq]
  by_cases hh : hasItem product_id c.items
  · rw [if_pos hh]; exact ⟨_, rfl⟩
  · rw [if_neg hh]; exact ⟨_, rfl⟩

/-! ### The cart mutation model for claim C7: any sequence of `add_item` /
`set_quantity` calls, where a failing call leaves the cart untouched (as in the
Rust source, which returns the error before any mutation). -/

inductive CartOp where
  | add (product_id : ProductId) (quantity : Nat)
  | set (product_id : ProductId) (quantity : Nat)

/-- One `Cart` mutation: a call that returns `Ok` replaces the cart, a call that
returns an error leaves it unchanged (as the Rust methods do). -/
def applyCartOp (c : Cart) : CartOp → Cart
  | CartOp.add product_id quantity =>
    match c.add_item product_id quantity with
    | .ok c' => c'
    | .error _ => c
  | CartOp.set product_id quantity =>
    match c.set_quantity product_id quantity with
    | .ok c' => c'
    | .error _ => c

/-- A sequence of cart mutations. -/
def applyCartOps (c : Cart) (ops : List CartOp) : Cart := ops.foldl applyCartOp c

theorem CartInv_add_item {c c' : Cart} {product_id : ProductId} {q : Nat}
    (hInv : CartInv c) (h : c.add_item product_id q = .ok c') : CartInv c' := by
  unfold Cart.add_item at h
  by_cases hq : q = 0
  · rw [if_pos hq] at h; cases h
  rw [if_neg hq] at h
  by_cases hh : hasItem product_id c.items
  · rw [if_pos hh] at h
    cases h
    refine ⟨?_, ?_⟩
    · simpa [map_pid_bumpFirst] using hInv.1
    · exact quantity_bumpFirst hInv.2
  · rw [if_neg hh] at h
    cases h
    have hfalse : hasItem product_id c.items = false := by simpa using hh
    have habs := hasItem_eq_false_iff.mp hfalse
    refine ⟨?_, ?_⟩
    · simp only [List.map_append, List.map_cons, List.map_nil]
      rw [List.nodup_append]
      refine ⟨hInv.1, List.nodup_singleton _, ?_⟩
      intro p hp hp'
      simp only [List.mem_singleton] at hp'
      obtain ⟨it, hit, rfl⟩ := List.mem_map.mp hp
      exact habs it hit hp'
    · intro it hit
      rcases List.mem_append.mp hit with hit | hit
      · exact hInv.2 it hit
      · simp only [List.mem_singleton] at hit
        subst hit
        show 1 ≤ q
        omega

theorem CartInv_set_quantity {c c' : Cart} {product_id : ProductId} {q : Nat}
    (hInv : CartInv c) (h : c.set_quantity product_id q = .ok c') : CartInv c' := by
  unfold Cart.set_quantity at h
  by_cases hh : hasItem product_id c.items
  · rw [if_pos hh] at h
    by_cases hq : q = 0
    · rw [if_pos hq] at h
      cases h
      refine ⟨?_, ?_⟩
      · exact (List.Sublist.map _ (List.filter_sublist c.items)).nodup hInv.1
      · intro it hit
        exact hInv.2 it (List.mem_of_mem_filter hit)
    · rw [if_neg hq] at h
      cases h
      refine ⟨?_, ?_⟩
      · simpa [map_pid_setFirst] using hInv.1
      · exact quantity_setFirst hInv.2 (Nat.one_le_iff_ne_zero.mpr hq)
  · rw [if_neg hh] at h
    by_cases hq : 0 < q
    · rw [if_pos hq] at h
      cases h
      have hfalse : hasItem product_id c.items = false := by simpa using hh
      have habs := hasItem_eq_false_iff.mp hfalse
      refine ⟨?_, ?_⟩
      · simp only [List.map_append, List.map_cons, List.map_nil]
        rw [List.nodup_append]
        refine ⟨hInv.1, List.nodup_singleton _, ?_⟩
        intro p hp hp'
        simp only [List.mem_singleton] at hp'
        obtain ⟨it, hit, rfl⟩ := List.mem_map.mp hp
        exact habs it hit hp'
      · intro it hit
        rcases List.mem_append.mp hit with hit | hit
        · exact hInv.2 it hit
        · simp only [List.mem_singleton] at hit
          subst hit
          show 1 ≤ q
          omega
    · rw [if_neg hq] at h; cases h

theorem CartInv_applyCartOp {c : Cart} (hInv : CartInv c) (op : CartOp) :
    CartInv (applyCartOp c op) := by
  cases op with
  | add product_id quantity =>
    cases h : c.add_item product_id quantity with
    | ok c' => simpa [applyCartOp, h] using CartInv_add_item hInv h
    | error _ => simpa [applyCartOp, h] using hInv
  | set product_id quantity =>
    cases h : c.set_quantity product_id quantity with
    | ok c' => simpa [applyCartOp, h] using CartInv_set_quantity hInv h
    | error _ => simpa [applyCartOp, h] using hInv

theorem CartInv_applyCartOps {c : Cart} (hInv : CartInv c) (ops : List CartOp) :
    CartInv (applyCartOps c ops) := by
  induction ops generalizing c with
  | nil => exact hInv
  | cons op rest ih => exact ih (CartInv_applyCartOp hInv op)

/-- C7: starting from an empty cart, after any sequence of `Cart::add_item` and
`Cart::set_quantity` calls that return `Ok` (failing calls leave the cart
untouched), the cart satisfies the invariant: no two cart items share a product
id, and every stored item has quantity at least 1. -/
theorem C7_cart_invariant (employee_id : EmployeeId) (ops : List CartOp) :
    CartInv (applyCartOps (Cart.empty employee_id) ops) :=
  CartInv_applyCartOps (by refine ⟨?_, ?_⟩ <;> simp [Cart.empty, CartInv]) ops

/-- C8: `set_quantity(p, 0)` on a present line removes it and succeeds;
`set_quantity(p, 0)` on an absent line fails with `MissingItem` and leaves the
cart unchanged; `set_quantity(p, q)` with `q ≥ 1` stores exactly `q` for `p`,
pushing a fresh line when `p` was absent (upsert). -/
theorem C8_set_quantity_spec (c : Cart) (product_id : ProductId) (q : Nat) :
    (hasItem product_id c.items = true →
      c.set_quantity product_id 0 =
        .ok { c with items := c.items.filter fun it => !(it.product_id == product_id) } ∧
      ∀ c', c.set_quantity product_id 0 = .ok c' → c'.qty product_id = none) ∧
    (hasItem product_id c.items = false →
      c.set_quantity product_id 0 = .error CartError.MissingItem ∧
      applyCartOp c (CartOp.set product_id 0) = c) ∧
    (1 ≤ q →
      ∃ c', c.set_quantity product_id q = .ok c' ∧ c'.qty product_id = some q ∧
        (hasItem product_id c.items = false →
          c'.items = c.items ++ [{ product_id := product_id, quantity := q }])) := by
  refine ⟨?_, ?_, ?_⟩
  · intro hh
    have hstep : c.set_quantity product_id 0 =
        .ok { c with items := c.items.filter fun it => !(it.product_id == product_id) } := by
      unfold Cart.set_quantity
      rw [if_pos hh, if_pos rfl]
    refine ⟨hstep, ?_⟩
    intro c' hc'
    rw [hstep] at hc'
    cases hc'
    simp [Cart.qty, findQty_filter_ne]
  · intro hh
    have hstep : c.set_quantity product_id 0 = .error CartError.MissingItem := by
      unfold Cart.set_quantity
      rw [if_neg (by simp [hh]), if_neg (by omega)]
    exact ⟨hstep, by simp [applyCartOp, hstep]⟩
  · intro hq
    have hq0 : q ≠ 0 := by omega
    by_cases hh : hasItem product_id c.items
    · refine ⟨{ c with items := setFirst product_id q c.items }, ?_, ?_, ?_⟩
      · unfold Cart.set_quantity
        rw [if_pos hh, if_neg hq0]
      · obtain ⟨x, hx⟩ := findQty_isSome hh
        simp [Cart.qty, findQty_setFirst, hx]
      · intro hfalse
        rw [hfalse] at hh
        cases hh
    · have hfalse : hasItem product_id c.items = false := by simpa using hh
      refine ⟨{ c with items := c.items ++ [{ product_id := product_id, quantity := q }] },
        ?_, ?_, fun _ => rfl⟩
      · unfold Cart.set_quantity
        rw [if_neg (by simp [hfalse]), if_pos (by omega)]
      · simp [Cart.qty, findQty_append_self _ hfalse]

/-- C8 witness: the three branches of `C8_set_quantity_spec` exercised on
concrete carts (product 1 present with quantity 2; product 9 absent). -/
theorem C8_set_quantity_spec_witness :
    ((Cart.mk 7 [CartItem.mk 1 2]).set_quantity 1 0 =
      .ok { employee_id := 7, items := [] } ∧
     (Cart.mk 7 [CartItem.mk 1 2]).set_quantity 9 0 = .error CartError.MissingItem ∧
     ∃ c', (Cart.mk 7 [CartItem.mk 1 2]).set_quantity 9 5 = .ok c' ∧
       c'.qty 9 = some 5 ∧
       (hasItem 9 [CartItem.mk 1 2] = false →
         c'.items = [CartItem.mk 1 2] ++ [CartItem.mk 9 5])) := by
  refine ⟨?_, ?_, ?_⟩
  · exact ((C8_set_quantity_spec (Cart.mk 7 [CartItem.mk 1 2]) 1 0).1 (by decide)).1
  · exact ((C8_set_quantity_spec (Cart.mk 7 [CartItem.mk 1 2]) 9 0).2.1 (by decide)).1
  · exact (C8_set_quantity_spec (Cart.mk 7 [CartItem.mk 1 2]) 9 5).2.2 (by decide)

/-- C9: adding `a` then `b` of the same product stores the same quantity as
adding `a + b` once (both calls succeed), and the merged quantity is the old one
plus the increment under `u32` saturating addition. -/
theorem C9_add_item_merge (c : Cart) (product_id : ProductId) (a b : Nat)
    (ha : 1 ≤ a) (hb : 1 ≤ b) (hab : a + b ≤ u32Max) :
    ∃ c₁ c₂ c₃,
      c.add_item product_id a = .ok c₁ ∧
      c₁.add_item product_id b = .ok c₂ ∧
      c.add_item product_id (a + b) = .ok c₃ ∧
      c₂.qty product_id = c₃.qty product_id ∧
      c₂.qty product_id =
        some ((c.qty product_id).elim (a + b) (fun x => satAdd x (a + b))) := by
  obtain ⟨c₁, h₁⟩ := add_item_ok c product_id (q := a) (by omega)
  obtain ⟨c₂, h₂⟩ := add_item_ok c₁ product_id (q := b) (by omega)
  obtain ⟨c₃, h₃⟩ := add_item_ok c product_id (q := a + b) (by omega)
  have q₁ := qty_add_item (by omega) h₁
  have q₂ := qty_add_item (by omega) h₂
  have q₃ := qty_add_item (by omega) h₃
  refine ⟨c₁, c₂, c₃, h₁, h₂, h₃, ?_⟩
  rw [q₁] at q₂
  have hsat : ∀ x : Nat, satAdd (satAdd x a) b = satAdd x (a + b) := by
    intro x
    simp only [satAdd, Nat.min_def]
    split_ifs <;> omega
  have hplain : satAdd a b = a + b := by
    simp only [satAdd]
    omega
  cases hcq : c.qty product_id with
  | none =>
    rw [hcq] at q₂ q₃
    simp only [Option.elim] at q₂ q₃
    rw [q₂, q₃, hplain]
    exact ⟨rfl, rfl⟩
  | some x =>
    rw [hcq] at q₂ q₃
    simp only [Option.elim] at q₂ q₃
    rw [q₂, q₃, hsat]
    exact ⟨rfl, rfl⟩

/-- C9 witness: merging 2 then 3 of product 1 into a cart already holding 4. -/
theorem C9_add_item_merge_witness :
    ∃ c₁ c₂ c₃,
      (Cart.mk 7 [CartItem.mk 1 4]).add_item 1 2 = .ok c₁ ∧
      c₁.add_item 1 3 = .ok c₂ ∧
      (Cart.mk 7 [CartItem.mk 1 4]).add_item 1 (2 + 3) = .ok c₃ ∧
      c₂.qty 1 = c₃.qty 1 ∧
      c₂.qty 1 = some (((Cart.mk 7 [CartItem.mk 1 4]).qty 1).elim (2 + 3)
        (fun x => satAdd x (2 + 3))) :=
  C9_add_item_merge (Cart.mk 7 [CartItem.mk 1 4]) 1 2 3 (by decide) (by decide)
    (by norm_num [u32Max])

/-! ### Variant B document number and email body -/

/-- C5: the Variant B quote's document number is the school code, then the
letter `x`, then month, day and two-digit year each rendered with Rust `{:02}`
zero-padding; with every component below 100 each renders as exactly two
digits. -/
theorem C5_document_number (school_code : String) (date : ordering.CalendarDate)
    (delivery_window : String) (cart_items : List ordering.CartLineItem)
    (tax_rate shipping_rate : Rat)
    (hm : date.month < 100) (hd : date.day < 100) (hy : date.year_two_digits < 100) :
    (ordering.build_quote school_code date delivery_window cart_items
        tax_rate shipping_rate).number =
      school_code ++ "x" ++ ordering.fmt02 date.month ++ ordering.fmt02 date.day
        ++ ordering.fmt02 date.year_two_digits ∧
    (ordering.fmt02 date.month).length = 2 ∧
    (ordering.fmt02 date.day).length = 2 ∧
    (ordering.fmt02 date.year_two_digits).length = 2 := by
  have hlen : ∀ n, n < 100 → (ordering.fmt02 n).length = 2 := by decide
  exact ⟨rfl, hlen _ hm, hlen _ hd, hlen _ hy⟩

/-- C5 witness: school code `28Q082` with date 12/22/25 yields exactly
`28Q082x122225`. -/
theorem C5_document_number_witness :
    (ordering.build_quote "28Q082" ⟨12, 22, 25⟩ "9am - 5pm" [] (71 / 800) (1 / 100)).number =
      "28Q082x122225" := by
  have h := C5_document_number "28Q082" ⟨12, 22, 25⟩ "9am - 5pm" [] (71 / 800) (1 / 100)
    (by decide) (by decide) (by decide)
  rw [h.1]
  rfl

/-- C6: the structured email body composed by `SubmitQuote` carries exactly the
first line item's description, quantity and price plus the invoice's school and
delivery window, no matter how many further line items the invoice has. -/
theorem C6_email_body_first_line (invoice : ordering.Invoice)
    (item : ordering.InvoiceLineItem) (rest : List ordering.InvoiceLineItem)
    (h : invoice.line_items = item :: rest) :
    ordering.build_email_body invoice = ordering.EmailBody.Structured
      { school := invoice.school
        delivery_window := invoice.delivery_window
        line_item_description := item.description
        line_item_quantity := item.quantity
        line_item_price := item.price } := by
  simp [ordering.build_email_body, h]

/-- C6 witness: an invoice with two line items; the body carries only the first
(`Napkins`), and `Forks` does not appear. -/
theorem C6_email_body_first_line_witness :
    ordering.build_email_body
      { quote_number := "28Q082x122225"
        line_items := [⟨"Napkins", 8, 20⟩, ⟨"Forks", 2, 3⟩]
        tax := some (142 / 10)
        shipping := some (16 / 10)
        delivery_window := "9am - 5pm"
        school := "PS 1" } =
      ordering.EmailBody.Structured
        { school := "PS 1"
          delivery_window := "9am - 5pm"
          line_item_description := "Napkins"
          line_item_quantity := 8
          line_item_price := 20 } :=
  C6_email_body_first_line _ ⟨"Napkins", 8, 20⟩ [⟨"Forks", 2, 3⟩] rfl

/-! ### Variant A pricing arithmetic -/

/-- C3: every Variant A quote built from a resolvable cart satisfies, in exact
integer cents: `tax = trunc((subtotal + flat_fee) * tax_rate_ppm / 100000)`
(the tax base is subtotal plus fee, not the subtotal alone) and
`total = subtotal + flat_fee + tax`. -/
theorem C3_variantA_pricing (pricing : PricingPolicy) (w : WorldA)
    (employee_id : EmployeeId) (out : QuoteOutput)
    (h : (getQuote pricing w employee_id).2 = .ok out) :
    out.tax.cents =
      Int.tdiv ((out.subtotal.cents + pricing.flat_fee.cents) * pricing.tax_rate_ppm) 100000 ∧
    out.total.cents = out.subtotal.cents + pricing.flat_fee.cents + out.tax.cents := by
  unfold getQuote at h
  dsimp only at h
  split at h
  · simp at h
  · split at h
    · simp at h
    · simp only [Except.ok.injEq] at h
      subst h
      refine ⟨rfl, ?_⟩
      simp [Money.add, Money.apply_rate_ppm, PricingPolicy.calculate_tax]

/-- Rust `PricingPolicy::default` from `core_entities`: a flat fee of 495 cents and a
tax rate of 8875 hundred-thousandths. -/
def defaultPricing : PricingPolicy := { flat_fee := ⟨495⟩, tax_rate_ppm := 8875 }

/-- A concrete Variant A world: employee 7 holds a cart with two units of the
single catalog product (250 cents each); the email gateway succeeds. -/
def worldC3 : WorldA :=
  { employees := fun e => if e = 7 then some ⟨7, "Q Williams", "qw@school.test", "pw"⟩ else none
    catalog := fun p => if p = 1 then some ⟨1, "Napkins", ProductCategory.Accessory, ⟨250⟩⟩ else none
    carts := fun e => if e = 7 then some ⟨7, [⟨1, 2⟩]⟩ else none
    quotes := []
    nextQuoteId := 1
    invoices := []
    nextInvoiceId := 1
    sentEmails := []
    emailFails := false
    emailFailMsg := ""
    now := 1700000000
    trace := [] }

/-- Rust `build_cart_lines` fails with `NotFound` whenever some cart item's catalog
lookup comes back empty. -/
theorem build_cart_lines_from_missing (catalog : ProductId → Option Product)
    (acc : List CartLine) (subtotal : Money) (items : List CartItem)
    (h : ∃ it ∈ items, catalog it.product_id = none) :
    build_cart_lines_from catalog acc subtotal items =
      .error (UseCaseError.NotFound "product not found") := by
  induction items generalizing acc subtotal with
  | nil => simp at h
  | cons it rest ih =>
    obtain ⟨j, hj, hnone⟩ := h
    rcases List.mem_cons.mp hj with rfl | hj
    · simp [build_cart_lines_from, hnone]
    · cases hc : catalog it.product_id with
      | none => simp [build_cart_lines_from, hc]
      | some product =>
        simp only [build_cart_lines_from, hc]
        exact ih _ _ ⟨j, hj, hnone⟩

/-- C1: whenever `ConfirmOrder` reaches the persistence step (employee found,
cart non-empty, every catalog lookup succeeds), exactly one invoice is appended
to the store, and the effectful port calls happen in the order persist → email →
clear: if the gateway fails, the error is returned with the invoice already
persisted, no email recorded and the cart untouched; if it succeeds, exactly one
email is sent to the employee's address and the cart entry is removed. -/
theorem C1_confirm_order_ordering (pricing : PricingPolicy) (w : WorldA)
    (employee_id : EmployeeId) (emp : Employee) (lines : List CartLine) (subtotal : Money)
    (hemp : w.employees employee_id = some emp)
    (hne : (w.cartOf employee_id).items ≠ [])
    (hlines : build_cart_lines w.catalog (w.cartOf employee_id) = .ok (lines, subtotal)) :
    ∃ inv : Invoice,
      (confirmOrder pricing w employee_id).1.invoices = w.invoices ++ [inv] ∧
      (w.emailFails = true →
        (confirmOrder pricing w employee_id).2 = .error (UseCaseError.Email w.emailFailMsg) ∧
        (confirmOrder pricing w employee_id).1.carts = w.carts ∧
        (confirmOrder pricing w employee_id).1.sentEmails = w.sentEmails ∧
        (confirmOrder pricing w employee_id).1.trace = w.trace ++ [PortCallA.createInvoice]) ∧
      (w.emailFails = false →
        (confirmOrder pricing w employee_id).2 =
          .ok { invoice_id := inv.id, total := inv.total, email := emp.email } ∧
        (confirmOrder pricing w employee_id).1.sentEmails = w.sentEmails ++ [(emp.email, inv)] ∧
        (confirmOrder pricing w employee_id).1.carts emp.id = none ∧
        (confirmOrder pricing w employee_id).1.trace = w.trace ++
          [PortCallA.createInvoice, PortCallA.sendEmail emp.email, PortCallA.clearCart emp.id]) := by
  have hne' : (w.cartOf employee_id).is_empty = false := by
    simp [Cart.is_empty, List.isEmpty_iff, hne]
  refine ⟨{ id := w.nextInvoiceId
            employee_id := emp.id
            items := lines.map invoiceLineOfCartLine
            subtotal := subtotal
            fee := pricing.flat_fee
            tax := pricing.calculate_tax (subtotal.add pricing.flat_fee)
            total := (subtotal.add pricing.flat_fee).add
              (pricing.calculate_tax (subtotal.add pricing.flat_fee)) }, ?_, ?_, ?_⟩
  · cases hf : w.emailFails <;>
      simp [confirmOrder, hemp, hne', hlines, WorldA.createInvoice, WorldA.sendInvoice,
        WorldA.clearCart, hf]
  · intro hf
    refine ⟨?_, ?_, ?_, ?_⟩ <;>
      simp [confirmOrder, hemp, hne', hlines, WorldA.createInvoice, WorldA.sendInvoice,
        WorldA.clearCart, hf]
  · intro hf
    refine ⟨?_, ?_, ?_, ?_⟩ <;>
      simp [confirmOrder, hemp, hne', hlines, WorldA.createInvoice, WorldA.sendInvoice,
        WorldA.clearCart, hf]

/-- A concrete Variant A world whose email gateway fails. -/
def worldFailMail : WorldA :=
  { employees := fun e => if e = 7 then some ⟨7, "Q Williams", "qw@school.test", "pw"⟩ else none
    catalog := fun p => if p = 1 then some ⟨1, "Napkins", ProductCategory.Accessory, ⟨250⟩⟩ else none
    carts := fun e => if e = 7 then some ⟨7, [⟨1, 2⟩]⟩ else none
    quotes := []
    nextQuoteId := 1
    invoices := []
    nextInvoiceId := 1
    sentEmails := []
    emailFails := true
    emailFailMsg := "smtp connection refused"
    now := 1700000000
    trace := [] }

/-- C1 witness: both gateway outcomes exercised on concrete worlds — on
`worldC3` (gateway up) exactly one invoice, one email and a cleared cart; on
`worldFailMail` (gateway down) the error surfaces with the invoice persisted and
the cart untouched. -/
theorem C1_confirm_order_ordering_witness :
    (∃ inv : Invoice,
      (confirmOrder defaultPricing worldC3 7).1.invoices = [] ++ [inv] ∧
      (confirmOrder defaultPricing worldC3 7).2 =
        .ok { invoice_id := inv.id, total := inv.total, email := "qw@school.test" } ∧
      (confirmOrder defaultPricing worldC3 7).1.sentEmails = [] ++ [("qw@school.test", inv)] ∧
      (confirmOrder defaultPricing worldC3 7).1.carts 7 = none ∧
      (confirmOrder defaultPricing worldC3 7).1.trace = [] ++
        [PortCallA.createInvoice, PortCallA.sendEmail "qw@school.test", PortCallA.clearCart 7]) ∧
    (∃ inv : Invoice,
      (confirmOrder defaultPricing worldFailMail 7).1.invoices = [] ++ [inv] ∧
      (confirmOrder defaultPricing worldFailMail 7).2 =
        .error (UseCaseError.Email "smtp connection refused") ∧
      (confirmOrder defaultPricing worldFailMail 7).1.carts = worldFailMail.carts ∧
      (confirmOrder defaultPricing worldFailMail 7).1.sentEmails = [] ∧
      (confirmOrder defaultPricing worldFailMail 7).1.trace = [] ++ [PortCallA.createInvoice]) := by
  constructor
  · obtain ⟨inv, h1, _, h3⟩ := C1_confirm_order_ordering defaultPricing worldC3 7
      ⟨7, "Q Williams", "qw@school.test", "pw"⟩
      [⟨1, "Napkins", ProductCategory.Accessory, ⟨250⟩, 2, ⟨500⟩⟩] ⟨500⟩
      rfl (by decide) rfl
    obtain ⟨h31, h32, h33, h34⟩ := h3 rfl
    exact ⟨inv, h1, h31, h32, h33, h34⟩
  · obtain ⟨inv, h1, h2, _⟩ := C1_confirm_order_ordering defaultPricing worldFailMail 7
      ⟨7, "Q Williams", "qw@school.test", "pw"⟩
      [⟨1, "Napkins", ProductCategory.Accessory, ⟨250⟩, 2, ⟨500⟩⟩] ⟨500⟩
      rfl (by decide) rfl
    obtain ⟨h21, h22, h23, h24⟩ := h2 rfl
    exact ⟨inv, h1, h21, h22, h23, h24⟩

/-- C10: when `UpdateCart`'s `set_quantity` succeeds but a later catalog lookup
finds no product for some line of the mutated cart, the interactor returns
`NotFound` while the mutated cart has already been saved to the cart store (the
save precedes the resolution, so the error does not leave the store unchanged). -/
theorem C10_update_cart_saves_before_resolving (w : WorldA) (employee_id : EmployeeId)
    (product_id : ProductId) (quantity : Nat) (updated : Cart)
    (hset : (w.cartOf employee_id).set_quantity product_id quantity = .ok updated)
    (hmiss : ∃ it ∈ updated.items, w.catalog it.product_id = none) :
    (updateCart w employee_id product_id quantity).2 =
      .error (UseCaseError.NotFound "product not found") ∧
    (updateCart w employee_id product_id quantity).1.carts updated.employee_id = some updated ∧
    (updateCart w employee_id product_id quantity).1.trace =
      w.trace ++ [PortCallA.saveCart updated.employee_id] := by
  have hbuild : build_cart_lines w.catalog updated =
      .error (UseCaseError.NotFound "product not found") :=
    build_cart_lines_from_missing w.catalog [] Money.zero updated.items hmiss
  refine ⟨?_, ?_, ?_⟩ <;> simp [updateCart, hset, hbuild, WorldA.saveCart]

/-- A concrete Variant A world whose catalog no longer carries product 1, while
employee 7's stored cart still references it. -/
def worldStale : WorldA :=
  { employees := fun e => if e = 7 then some ⟨7, "Q Williams", "qw@school.test", "pw"⟩ else none
    catalog := fun _ => none
    carts := fun e => if e = 7 then some ⟨7, [⟨1, 2⟩]⟩ else none
    quotes := []
    nextQuoteId := 1
    invoices := []
    nextInvoiceId := 1
    sentEmails := []
    emailFails := false
    emailFailMsg := ""
    now := 1700000000
    trace := [] }

/-- C10 witness: on `worldStale`, setting product 1 to quantity 5 saves the
mutated cart and only then fails the view with `NotFound`. -/
theorem C10_update_cart_saves_before_resolving_witness :
    (updateCart worldStale 7 1 5).2 = .error (UseCaseError.NotFound "product not found") ∧
    (updateCart worldStale 7 1 5).1.carts 7 = some ⟨7, [⟨1, 5⟩]⟩ ∧
    (updateCart worldStale 7 1 5).1.trace = [] ++ [PortCallA.saveCart 7] :=
  C10_update_cart_saves_before_resolving worldStale 7 1 5 ⟨7, [⟨1, 5⟩]⟩ (by rfl)
    ⟨⟨1, 5⟩, by decide, rfl⟩

/-! ### Empty-cart policy (C2) and Variant B fail-fast resolution (C4) -/

/-- A Variant B world with a registered employee and school (code `28Q082`) and
an empty cart. -/
def worldEmptyB : ordering.WorldB :=
  { employees := fun e =>
      if e = "qw@schools.test" then
        some ⟨"qw@schools.test", "pw", "Q", "Williams", "Coordinator", "PS 1", "555", "9am - 5pm"⟩
      else none
    schools := fun n => if n = "PS 1" then some ⟨"PS 1", some "28Q082"⟩ else none
    carts := fun _ => []
    today := ⟨12, 22, 25⟩
    tax_rate := 71 / 800
    shipping_rate := 1 / 100
    quotes := []
    invoices := []
    outbox := []
    renderPdf := fun _ => [37, 80, 68, 70] }

/-- C2 counterexample: on `worldEmptyB` the cart is empty, yet `ViewQuote` does
not fail with `EmptyCart` — it succeeds and persists a zero-line quote — and
`SubmitQuote` also succeeds, persisting a quote and an invoice and sending an
email; this refutes the claim that all four operations fail on an empty cart
with nothing persisted. -/
theorem C2_empty_cart_counterexample :
    (∃ q : ordering.Quote,
      (ordering.viewQuote worldEmptyB "qw@schools.test").2 = .ok q ∧
      q.line_items = [] ∧
      ((ordering.viewQuote worldEmptyB "qw@schools.test").1.quotes).length = 1) ∧
    (∃ out, (ordering.submitQuote worldEmptyB "qw@schools.test").2 = .ok out ∧
      ((ordering.submitQuote worldEmptyB "qw@schools.test").1.invoices).length = 1 ∧
      ((ordering.submitQuote worldEmptyB "qw@schools.test").1.outbox).length = 1) := by
  refine ⟨⟨ordering.build_quote "28Q082" ⟨12, 22, 25⟩ "9am - 5pm" [] (71 / 800) (1 / 100),
    rfl, rfl, rfl⟩, ⟨⟨"28Q082x122225"⟩, ?_, rfl, rfl⟩⟩
  rfl

/-- Like `worldC3`, but employee 7 has no cart entry at all. -/
def worldAEmpty : WorldA :=
  { employees := fun e => if e = 7 then some ⟨7, "Q Williams", "qw@school.test", "pw"⟩ else none
    catalog := fun p => if p = 1 then some ⟨1, "Napkins", ProductCategory.Accessory, ⟨250⟩⟩ else none
    carts := fun _ => none
    quotes := []
    nextQuoteId := 1
    invoices := []
    nextInvoiceId := 1
    sentEmails := []
    emailFails := false
    emailFailMsg := ""
    now := 1700000000
    trace := [] }

/-- C2 (amended): with the employee present and the cart empty or absent, the
Variant A operations `GetQuote` and `ConfirmOrder` fail with `EmptyCart` and
leave the world untouched (no quote or invoice persisted, no email sent, cart
still empty); the Variant B operations perform no emptiness check — `ViewQuote`
on the same conditions succeeds and persists a zero-line quote, and
`SubmitQuote` succeeds as well, persisting the zero-line quote and an invoice
built from it and sending one email to the employee's address. -/
theorem C2_empty_cart_amended (pricing : PricingPolicy) (wA : WorldA)
    (employee_id : EmployeeId) (emp : Employee)
    (hemp : wA.employees employee_id = some emp)
    (hcart : (wA.cartOf employee_id).items = [])
    (wB : ordering.WorldB) (email : String) (empB : ordering.Employee)
    (sch : ordering.School) (code : String)
    (hBemp : wB.employees email = some empB)
    (hBsch : wB.schools empB.school_name = some sch)
    (hBcode : sch.code = some code)
    (hBcart : wB.carts email = []) :
    getQuote pricing wA employee_id = (wA, .error UseCaseError.EmptyCart) ∧
    confirmOrder pricing wA employee_id = (wA, .error UseCaseError.EmptyCart) ∧
    (∃ q : ordering.Quote,
      ordering.viewQuote wB email = ({ wB with quotes := wB.quotes ++ [q] }, .ok q) ∧
      q.line_items = []) ∧
    (∃ q : ordering.Quote,
      q.line_items = [] ∧
      (ordering.submitQuote wB email).2 = .ok { quote_number := q.number } ∧
      (ordering.submitQuote wB email).1.quotes = wB.quotes ++ [q] ∧
      (ordering.submitQuote wB email).1.invoices =
        wB.invoices ++ [ordering.build_invoice q empB.school_name] ∧
      ∃ msg : ordering.EmailMessage,
        (ordering.submitQuote wB email).1.outbox = wB.outbox ++ [msg] ∧
        msg.to_addr = empB.email) := by
  have hemptyA : (wA.cartOf employee_id).is_empty = true := by
    simp [Cart.is_empty, hcart]
  refine ⟨?_, ?_, ?_, ?_⟩
  · simp [getQuote, hemptyA]
  · simp [confirmOrder, hemp, hemptyA]
  · refine ⟨ordering.build_quote code wB.today empB.delivery_window [] wB.tax_rate
      wB.shipping_rate, ?_, ?_⟩
    · simp [ordering.viewQuote, hBemp, hBsch, hBcode, hBcart]
    · simp [ordering.build_quote]
  · refine ⟨ordering.build_quote code wB.today empB.delivery_window [] wB.tax_rate
      wB.shipping_rate, by simp [ordering.build_quote], ?_, ?_, ?_, ?_⟩
    · simp [ordering.submitQuote, hBemp, hBsch, hBcode, hBcart]
    · simp [ordering.submitQuote, hBemp, hBsch, hBcode, hBcart]
    · simp [ordering.submitQuote, hBemp, hBsch, hBcode, hBcart]
    · refine ⟨{ to_addr := empB.email
                body := ordering.build_email_body (ordering.build_invoice
                  (ordering.build_quote code wB.today empB.delivery_window []
                    wB.tax_rate wB.shipping_rate) empB.school_name)
                attachments := [{ content_type := "application/pdf"
                                  file_name := some "invoice.pdf"
                                  bytes := wB.renderPdf (ordering.build_invoice
                                    (ordering.build_quote code wB.today empB.delivery_window []
                                      wB.tax_rate wB.shipping_rate) empB.school_name) }] },
        ?_, rfl⟩
      simp [ordering.submitQuote, hBemp, hBsch, hBcode, hBcart]

/-- C2 witness: the amended behavior at concrete worlds (`worldAEmpty`,
`worldEmptyB`), covering all four operations. -/
theorem C2_empty_cart_amended_witness :
    getQuote defaultPricing worldAEmpty 7 = (worldAEmpty, .error UseCaseError.EmptyCart) ∧
    confirmOrder defaultPricing worldAEmpty 7 = (worldAEmpty, .error UseCaseError.EmptyCart) ∧
    (∃ q : ordering.Quote,
      ordering.viewQuote worldEmptyB "qw@schools.test" =
        ({ worldEmptyB with quotes := [] ++ [q] }, .ok q) ∧
      q.line_items = []) ∧
    (∃ q : ordering.Quote,
      q.line_items = [] ∧
      (ordering.submitQuote worldEmptyB "qw@schools.test").2 = .ok { quote_number := q.number } ∧
      (ordering.submitQuote worldEmptyB "qw@schools.test").1.quotes = [] ++ [q] ∧
      (ordering.submitQuote worldEmptyB "qw@schools.test").1.invoices =
        [] ++ [ordering.build_invoice q "PS 1"] ∧
      ∃ msg : ordering.EmailMessage,
        (ordering.submitQuote worldEmptyB "qw@schools.test").1.outbox = [] ++ [msg] ∧
        msg.to_addr = "qw@schools.test") :=
  C2_empty_cart_amended defaultPricing worldAEmpty 7 ⟨7, "Q Williams", "qw@school.test", "pw"⟩
    rfl rfl worldEmptyB "qw@schools.test"
    ⟨"qw@schools.test", "pw", "Q", "Williams", "Coordinator", "PS 1", "555", "9am - 5pm"⟩
    ⟨"PS 1", some "28Q082"⟩ "28Q082" rfl rfl rfl rfl

/-- Like `worldEmptyB`, but the school's code is the empty string and the cart
is populated. -/
def worldBlankCode : ordering.WorldB :=
  { employees := fun e =>
      if e = "qw@schools.test" then
        some ⟨"qw@schools.test", "pw", "Q", "Williams", "Coordinator", "PS 1", "555", "9am - 5pm"⟩
      else none
    schools := fun n => if n = "PS 1" then some ⟨"PS 1", some ""⟩ else none
    carts := fun e => if e = "qw@schools.test" then [⟨"Napkins", 8, 20⟩] else []
    today := ⟨12, 22, 25⟩
    tax_rate := 71 / 800
    shipping_rate := 1 / 100
    quotes := []
    invoices := []
    outbox := []
    renderPdf := fun _ => [37, 80, 68, 70] }

/-- C4 counterexample: the school record of `worldBlankCode` has code
`Some("")` — it "does not have a non-empty code" — yet `ViewQuote` succeeds and
persists a quote (whose document number degenerates to `x122225`); the source
only checks that the code field is present, not that it is non-empty. -/
theorem C4_fail_fast_counterexample :
    ∃ q : ordering.Quote,
      (ordering.viewQuote worldBlankCode "qw@schools.test").2 = .ok q ∧
      q.number = "x122225" ∧
      ((ordering.viewQuote worldBlankCode "qw@schools.test").1.quotes).length = 1 := by
  refine ⟨ordering.build_quote "" ⟨12, 22, 25⟩ "9am - 5pm" [⟨"Napkins", 8, 20⟩]
    (71 / 800) (1 / 100), rfl, ?_, rfl⟩
  rfl

/-- C4 (amended): `ViewQuote` and `SubmitQuote` fail fast with a `QuoteError`
carrying the underlying cause when the employee record is absent, the school
record is absent, or the school record's code field is absent (`None`; an
empty-string code is accepted) — and in each failure case the world is returned
unchanged: no quote persisted, no invoice persisted, no email sent. -/
theorem C4_fail_fast_amended (w : ordering.WorldB) (email : String)
    (h : w.employees email = none
      ∨ (∃ emp, w.employees email = some emp ∧ w.schools emp.school_name = none)
      ∨ (∃ emp sch, w.employees email = some emp ∧ w.schools emp.school_name = some sch ∧
          sch.code = none)) :
    (∃ e, ordering.viewQuote w email = (w, .error e) ∧
      (e.message = "employee account not found" ∨ e.message = "school not found" ∨
        e.message = "school code not found")) ∧
    (∃ e, ordering.submitQuote w email = (w, .error e) ∧
      (e.message = "employee account not found" ∨ e.message = "school not found" ∨
        e.message = "school code not found")) := by
  rcases h with h | ⟨emp, h1, h2⟩ | ⟨emp, sch, h1, h2, h3⟩
  · exact ⟨⟨⟨"employee account not found"⟩, by simp [ordering.viewQuote, h], Or.inl rfl⟩,
      ⟨⟨"employee account not found"⟩, by simp [ordering.submitQuote, h], Or.inl rfl⟩⟩
  · exact ⟨⟨⟨"school not found"⟩, by simp [ordering.viewQuote, h1, h2], Or.inr (Or.inl rfl)⟩,
      ⟨⟨"school not found"⟩, by simp [ordering.submitQuote, h1, h2], Or.inr (Or.inl rfl)⟩⟩
  · exact ⟨⟨⟨"school code not found"⟩, by simp [ordering.viewQuote, h1, h2, h3],
      Or.inr (Or.inr rfl)⟩,
      ⟨⟨"school code not found"⟩, by simp [ordering.submitQuote, h1, h2, h3],
        Or.inr (Or.inr rfl)⟩⟩

/-- C4 witness: an unregistered address on `worldEmptyB` makes both operations
fail fast with the cause, leaving the world unchanged. -/
theorem C4_fail_fast_amended_witness :
    (∃ e, ordering.viewQuote worldEmptyB "ghost@schools.test" = (worldEmptyB, .error e) ∧
      (e.message = "employee account not found" ∨ e.message = "school not found" ∨
        e.message = "school code not found")) ∧
    (∃ e, ordering.submitQuote worldEmptyB "ghost@schools.test" = (worldEmptyB, .error e) ∧
      (e.message = "employee account not found" ∨ e.message = "school not found" ∨
        e.message = "school code not found")) :=
  C4_fail_fast_amended worldEmptyB "ghost@schools.test" (Or.inl rfl)

/-- C3 witness: on `worldC3` (subtotal 500, fee 495), the quote prices to tax 88
and total 1083 cents, matching the formula. -/
theorem C3_variantA_pricing_witness :
    (getQuote defaultPricing worldC3 7).2 =
      .ok { items := [⟨1, "Napkins", ProductCategory.Accessory, ⟨250⟩, 2, ⟨500⟩⟩]
            subtotal := ⟨500⟩, fee := ⟨495⟩, tax := ⟨88⟩, total := ⟨1083⟩ } ∧
    (88 : Int) = Int.tdiv ((500 + 495) * 8875) 100000 ∧ (1083 : Int) = 500 + 495 + 88 := by
  refine ⟨by rfl, ?_⟩
  have h := C3_variantA_pricing defaultPricing worldC3 7
    { items := [⟨1, "Napkins", ProductCategory.Accessory, ⟨250⟩, 2, ⟨500⟩⟩]
      subtotal := ⟨500⟩, fee := ⟨495⟩, tax := ⟨88⟩, total := ⟨1083⟩ } (by rfl)
  exact h

end WebApp
